import Mathlib

/-!
Verification development for the libdctest repository (libdivecomputer
excerpt): the Suunto Solution sample-stream parser
(`src/suunto_solution_parser.c`) and the Uwatec Smart device backend
(`src/uwatec_smart.c`).

The C code is shallowly embedded: byte buffers become `List Nat` (each
entry a byte value), C `unsigned int` arithmetic is `Nat` with an explicit
`% 2^32` wherever the C value can wrap, and the transport (irda socket,
external to the repository) is modelled as an oracle of call results.
Reads past the end of a buffer, which the C code can perform, are modelled
by a `junk : Nat → Nat` function giving the contents of memory beyond the
buffer, so that out-of-bounds reads are observable as dependence on
`junk`.
-/

/-- The `dc_status_t` values used by the modelled code. `ioerror` stands
for `DC_STATUS_IO`. -/
inductive DcStatus where
  | success
  | dataformat
  | ioerror
  | timeout
  | protocol
  | nomemory
  | invalidargs
deriving DecidableEq, Repr

/-- Event classification of `suunto_solution_parser_samples_foreach`:
byte 0x7e is a deco stop, 0x7f a ceiling, 0x81 a slow ascent, anything
else in the event band is logged as unknown (and the zero-initialised
event value is still emitted). -/
inductive SEvent where
  | decostop
  | ceiling
  | ascent
  | unknown
deriving DecidableEq, Repr

/-- One callback invocation of the sample decoder. `time` is the running
time in seconds; `depth` is the running depth accumulator in feet (the C
code multiplies it by the constant `FEET` when filling the sample value;
the claims are about the accumulated feet value). -/
inductive Sample where
  | time (t : Nat)
  | depth (d : Nat)
  | event (e : SEvent)
deriving DecidableEq, Repr

/-- Modulus of C `unsigned int` arithmetic (32-bit). -/
def U32 : Nat := 4294967296

/-- Addition of C `unsigned int` values. -/
def uadd32 (a b : Nat) : Nat := (a + b) % U32

/-- The value `(unsigned int)(signed char) v` for a byte `v < 256`:
sign-extend the byte and reduce modulo 2^32. -/
def sext8 (v : Nat) : Nat := if v < 128 then v else v + (U32 - 256)

/-- A byte interpreted as a signed quantity (`signed char`), as an
integer. -/
def sByte (v : Nat) : Int := if v < 128 then (v : Int) else (v : Int) - 256

/-- Memory as seen by the C code: indices inside the buffer read the
buffer, indices past the end read whatever `junk` says is there. -/
def readMem (data : List Nat) (junk : Nat → Nat) (i : Nat) : Nat :=
  if i < data.length then data.getD i 0 else junk i

/-- Event type chosen by the `switch (value)` in the event branch of
`suunto_solution_parser_samples_foreach`. -/
def classifyEvent (v : Nat) : SEvent :=
  if v = 0x7e then SEvent.decostop
  else if v = 0x7f then SEvent.ceiling
  else if v = 0x81 then SEvent.ascent
  else SEvent.unknown

/-- Result of one run of the sample decoder.  `samples` lists the
callback invocations in order; `loopReads` lists the buffer indices read
by the scan loop, in order; `finalRead` is the index read by the
terminal-marker check `data[offset] != 0x80` after the loop (`none` when
the function returned from inside the loop). -/
structure SolOut where
  status : DcStatus
  samples : List Sample
  loopReads : List Nat
  finalRead : Option Nat
deriving DecidableEq, Repr

/-- The exit path of the scan loop of
`suunto_solution_parser_samples_foreach`: the loop condition
`offset < size && data[offset] != 0x80` failed, and line 248 re-reads
`data[offset]` to decide between `DC_STATUS_SUCCESS` and
`DC_STATUS_DATAFORMAT`.  When `offset = size` this read is one byte past
the buffer and sees `junk offset`. -/
def solExit (data : List Nat) (junk : Nat → Nat) (offset : Nat) : SolOut :=
  { status := if readMem data junk offset = 0x80 then DcStatus.success else DcStatus.dataformat
    samples := []
    loopReads := if offset < data.length then [offset] else []
    finalRead := some offset }

/-- The scan loop of `suunto_solution_parser_samples_foreach`
(src/suunto_solution_parser.c lines 203-251), fuelled: each iteration
advances `offset` by at least one, so any `fuel ≥ size - offset` is
enough and the fuel-exhausted branch is unreachable from the entry
point.  State: `offset` into `data`, running `time` and `depth`
accumulators (C `unsigned int`). -/
def solLoop (data : List Nat) (junk : Nat → Nat) : Nat → Nat → Nat → Nat → SolOut
  | 0, offset, _, _ =>
      if offset < data.length ∧ readMem data junk offset ≠ 0x80 then
        { status := DcStatus.dataformat, samples := [], loopReads := [offset], finalRead := none }
      else solExit data junk offset
  | fuel + 1, offset, time, depth =>
      if offset < data.length ∧ readMem data junk offset ≠ 0x80 then
        let v := readMem data junk offset
        if v < 0x7e ∨ 0x82 < v then
          let time' := uadd32 time 180
          let d1 := uadd32 depth (sext8 v)
          if v = 0x7D ∨ v = 0x83 then
            if data.length < offset + 2 then
              { status := DcStatus.dataformat, samples := [Sample.time time']
                loopReads := [offset], finalRead := none }
            else
              let w := readMem data junk (offset + 1)
              let d2 := uadd32 d1 (sext8 w)
              let rest := solLoop data junk fuel (offset + 2) time' d2
              { status := rest.status
                samples := Sample.time time' :: Sample.depth d2 :: rest.samples
                loopReads := offset :: (offset + 1) :: rest.loopReads
                finalRead := rest.finalRead }
          else
            let rest := solLoop data junk fuel (offset + 1) time' d1
            { status := rest.status
              samples := Sample.time time' :: Sample.depth d1 :: rest.samples
              loopReads := offset :: rest.loopReads
              finalRead := rest.finalRead }
        else
          let rest := solLoop data junk fuel (offset + 1) time depth
          { status := rest.status
            samples := Sample.event (classifyEvent v) :: rest.samples
            loopReads := offset :: rest.loopReads
            finalRead := rest.finalRead }
      else solExit data junk offset

/-- `suunto_solution_parser_samples_foreach`: reject buffers shorter than
4 bytes, then run the scan loop from offset 3 with time and depth 0.
The callback pointer is not a parameter because the C call sites discard
the callback's result; the emitted samples are `(·).samples`. -/
def suunto_solution_parser_samples_foreach (data : List Nat) (junk : Nat → Nat) : SolOut :=
  if data.length < 4 then
    { status := DcStatus.dataformat, samples := [], loopReads := [], finalRead := none }
  else solLoop data junk (data.length - 3) 3 0 0

/-- The samples delivered to a sample consumer `cb`.  In the C code the
consumer is invoked once per sample and its return value is discarded
(`if (callback) callback (...)` as a statement), so the delivered
sequence does not depend on `cb` at all. -/
def samplesDelivered (cb : Sample → Bool) (data : List Nat) (junk : Nat → Nat) : List Sample :=
  (suunto_solution_parser_samples_foreach data junk).samples

/-- The depth delta encoded by an overflow pair: the leading byte 0x7D
contributes +125, 0x83 contributes -125, and the continuation byte `k`
contributes its signed value. -/
def overflowDelta (v k : Nat) : Int := (if v = 0x7D then 125 else -125) + sByte k

/-- The 4-byte marker comparison `memcmp (data + p, header, 4) == 0` of
`uwatec_smart_extract_dives`, with `header = {0xa5, 0xa5, 0x5a, 0x5a}`. -/
def isMarkerAt (data : List Nat) (junk : Nat → Nat) (p : Nat) : Bool :=
  readMem data junk p == 0xa5 && readMem data junk (p + 1) == 0xa5 &&
  readMem data junk (p + 2) == 0x5a && readMem data junk (p + 3) == 0x5a

/-- `array_uint32_le (data + p)`: the 4-byte little-endian value at `p`. -/
def le32At (data : List Nat) (junk : Nat → Nat) (p : Nat) : Nat :=
  readMem data junk p + 256 * readMem data junk (p + 1) +
  65536 * readMem data junk (p + 2) + 16777216 * readMem data junk (p + 3)

/-- Result of a run of the dive splitter.  `records` lists `(position,
length)` of every dive record handed to the consumer, in delivery order;
`matched` lists the positions where the marker comparison succeeded;
`tested` lists every position where the marker comparison was executed,
in scan order. -/
structure ExtractOut where
  status : DcStatus
  records : List (Nat × Nat)
  matched : List Nat
  tested : List Nat
deriving DecidableEq, Repr

/-- The backward scan loop of `uwatec_smart_extract_dives`
(src/uwatec_smart.c lines 471-490), fuelled: `current` strictly
decreases every iteration, so any `fuel ≥ current` is enough and the
fuel-exhausted branch is unreachable from the entry point.  The loop
decrements `current` before testing, compares the marker at the
decremented position, reads the little-endian length at `+4`, rejects
with `DC_STATUS_DATAFORMAT` when `(current + len) mod 2^32` exceeds
`previous` (C `unsigned int` addition), delivers the record to `cb`
(stopping with success when `cb` returns false), and continues from
`current - 4` (or 0). -/
def extractLoop (data : List Nat) (junk : Nat → Nat) (cb : Nat → Nat → Bool) :
    Nat → Nat → Nat → ExtractOut
  | 0, _, _ =>
      { status := DcStatus.success, records := [], matched := [], tested := [] }
  | fuel + 1, current, previous =>
      if current = 0 then
        { status := DcStatus.success, records := [], matched := [], tested := [] }
      else
        let c := current - 1
        if isMarkerAt data junk c then
          let len := le32At data junk (c + 4)
          if previous < (c + len) % U32 then
            { status := DcStatus.dataformat, records := [], matched := [c], tested := [c] }
          else if cb c len then
            let rest := extractLoop data junk cb fuel (if 4 ≤ c then c - 4 else 0) c
            { status := rest.status
              records := (c, len) :: rest.records
              matched := c :: rest.matched
              tested := c :: rest.tested }
          else
            { status := DcStatus.success, records := [(c, len)], matched := [c], tested := [c] }
        else
          let rest := extractLoop data junk cb fuel c previous
          { status := rest.status
            records := rest.records
            matched := rest.matched
            tested := c :: rest.tested }

/-- `uwatec_smart_extract_dives`: scan state starts at `previous = size`,
`current = size - 4` (or 0 for short buffers).  The consumer `cb`
receives the record position and length (the C callback also receives
the fingerprint pointer `data + current + 8`, which carries no extra
information for the modelled claims).  The `abstract` device argument
and its backend check are lifecycle scaffolding and are not modelled. -/
def uwatec_smart_extract_dives (data : List Nat) (junk : Nat → Nat)
    (cb : Nat → Nat → Bool) : ExtractOut :=
  extractLoop data junk cb data.length
    (if 4 ≤ data.length then data.length - 4 else 0) data.length

/-- A C `int` reinterpreted as `unsigned int` (the value it takes in a
comparison against an `unsigned int`, by the usual arithmetic
conversions). -/
def toU32 (z : Int) : Nat := (z % (4294967296 : Int)).toNat

/-- The `EXITCODE` macro of src/uwatec_smart.c lines 32-35:
`rc == -1 ? DC_STATUS_IO : DC_STATUS_TIMEOUT`. -/
def EXITCODE (rc : Int) : DcStatus :=
  if rc = -1 then DcStatus.ioerror else DcStatus.timeout

/-- `uwatec_smart_transfer`: write the command, fail with
`EXITCODE (n)` when the transport's return value differs from the
command size (an `int` vs `unsigned int` comparison, hence `toU32`);
then read the answer, with the same check against the answer size.
`writeRet` and `readRet` are the transport's return values
(`irda_socket_write` / `irda_socket_read`, external to the repo). -/
def uwatec_smart_transfer (writeRet readRet : Int) (csize asize : Nat) : DcStatus :=
  if toU32 writeRet ≠ csize then EXITCODE writeRet
  else if toU32 readRet ≠ asize then EXITCODE readRet
  else DcStatus.success

/-- Little-endian value of a 4-byte answer list. -/
def le32 (bs : List Nat) : Nat :=
  bs.getD 0 0 + 256 * bs.getD 1 0 + 65536 * bs.getD 2 0 + 16777216 * bs.getD 3 0

/-- Oracle describing the behaviour of everything external to
`uwatec_smart_device_dump`: the result of `dc_buffer_clear`, the
transport return counts for the three version transfers (model, serial,
clock, each via `uwatec_smart_transfer`), for the 0xC6 length query and
the 0xC4 data query together with their 4-byte answers, the result of
`dc_buffer_resize`, and one `(available, readResult)` pair per payload
chunk read (`irda_socket_available` / `irda_socket_read`).  An exhausted
chunk list is modelled as the transport failing the read with -1. -/
structure SmartOracle where
  clearOk : Bool
  vW1 : Int
  vR1 : Int
  vW2 : Int
  vR2 : Int
  vW3 : Int
  vR3 : Int
  c6W : Int
  c6R : Int
  c6Answer : List Nat
  resizeOk : Bool
  c4W : Int
  c4R : Int
  c4Answer : List Nat
  chunks : List (Int × Int)
deriving Repr

/-- Result of a run of the dump engine.  `opcodes` lists the first byte
of every command handed to `uwatec_smart_transfer`, in order;
`chunkTries` counts the payload chunk reads attempted by the final
loop. -/
structure DumpOut where
  status : DcStatus
  bufSize : Nat
  opcodes : List Nat
  chunkTries : Nat
deriving DecidableEq, Repr

/-- The chunked payload read loop of `uwatec_smart_device_dump`
(src/uwatec_smart.c lines 406-431): chunk size is 32, raised to
`available` when the transport reports more (an `int` vs `unsigned int`
comparison), capped to the remaining length; a read returning anything
other than the chunk size fails with `EXITCODE`.  Returns the status and
the number of reads attempted. -/
def chunkLoop (length : Nat) : List (Int × Int) → Nat → DcStatus × Nat
  | [], nbytes =>
      if nbytes < length then (EXITCODE (-1), 1) else (DcStatus.success, 0)
  | (avail, rres) :: rest, nbytes =>
      if nbytes < length then
        let len1 := if 32 < toU32 avail then toU32 avail else 32
        let len2 := if length < (nbytes + len1) % U32 then length - nbytes else len1
        if toU32 rres ≠ len2 then (EXITCODE rres, 1)
        else
          let r := chunkLoop length rest (nbytes + len2)
          (r.1, r.2 + 1)
      else (DcStatus.success, 0)

/-- `uwatec_smart_device_dump` (src/uwatec_smart.c lines 308-434):
clear the buffer, run the three version transfers (opcodes 0x10, 0x14,
0x1A; the answers only feed progress/devinfo events, which are not
modelled), send the 0xC6 length query (9-byte command, 4-byte answer),
return success immediately when the length is 0, resize the buffer,
send the 0xC4 data query, require `total == length + 4` in `unsigned
int` arithmetic (`ProtocolError` otherwise), then read the payload in
chunks. -/
def uwatec_smart_device_dump (o : SmartOracle) : DumpOut :=
  if o.clearOk = false then
    { status := DcStatus.nomemory, bufSize := 0, opcodes := [], chunkTries := 0 }
  else
    let r1 := uwatec_smart_transfer o.vW1 o.vR1 1 1
    if r1 ≠ DcStatus.success then
      { status := r1, bufSize := 0, opcodes := [0x10], chunkTries := 0 }
    else
      let r2 := uwatec_smart_transfer o.vW2 o.vR2 1 4
      if r2 ≠ DcStatus.success then
        { status := r2, bufSize := 0, opcodes := [0x10, 0x14], chunkTries := 0 }
      else
        let r3 := uwatec_smart_transfer o.vW3 o.vR3 1 4
        if r3 ≠ DcStatus.success then
          { status := r3, bufSize := 0, opcodes := [0x10, 0x14, 0x1A], chunkTries := 0 }
        else
          let rc6 := uwatec_smart_transfer o.c6W o.c6R 9 4
          if rc6 ≠ DcStatus.success then
            { status := rc6, bufSize := 0, opcodes := [0x10, 0x14, 0x1A, 0xC6], chunkTries := 0 }
          else
            let length := le32 o.c6Answer
            if length = 0 then
              { status := DcStatus.success, bufSize := 0
                opcodes := [0x10, 0x14, 0x1A, 0xC6], chunkTries := 0 }
            else if o.resizeOk = false then
              { status := DcStatus.nomemory, bufSize := 0
                opcodes := [0x10, 0x14, 0x1A, 0xC6], chunkTries := 0 }
            else
              let rc4 := uwatec_smart_transfer o.c4W o.c4R 9 4
              if rc4 ≠ DcStatus.success then
                { status := rc4, bufSize := length
                  opcodes := [0x10, 0x14, 0x1A, 0xC6, 0xC4], chunkTries := 0 }
              else
                let total := le32 o.c4Answer
                if total ≠ (length + 4) % U32 then
                  { status := DcStatus.protocol, bufSize := length
                    opcodes := [0x10, 0x14, 0x1A, 0xC6, 0xC4], chunkTries := 0 }
                else
                  let r := chunkLoop length o.chunks 0
                  { status := r.1, bufSize := length
                    opcodes := [0x10, 0x14, 0x1A, 0xC6, 0xC4], chunkTries := r.2 }

/-- Chain invariant of delivered dive records: each record `(p, len)`
satisfies `(p + len) mod 2^32 ≤ bound`, where the bound starts at the
buffer size and becomes the start of the previously accepted record. -/
def chainOkB : Nat → List (Nat × Nat) → Bool
  | _, [] => true
  | bound, r :: rest => decide ((r.1 + r.2) % U32 ≤ bound) && chainOkB r.1 rest

/-- Cooperative-stop discipline of a delivered record list: every record
before a stop signal has `cb` true, and a record on which `cb` returned
false is the last one delivered, with overall status success. -/
def stopsProperly (cb : Nat → Nat → Bool) (st : DcStatus) : List (Nat × Nat) → Bool
  | [] => true
  | r :: rest =>
      if cb r.1 r.2 then stopsProperly cb st rest
      else rest.isEmpty && decide (st = DcStatus.success)

/-! ## Theorems -/

/-- Helper: the first marker-candidate position tested by the scan loop
is `current - 1` (the loop decrements before comparing), provided the
fuel covers the loop. -/
theorem extractLoop_tested_head (data : List Nat) (junk : Nat → Nat) (cb : Nat → Nat → Bool)
    (fuel current previous : Nat) (h : current ≤ fuel) :
    (extractLoop data junk cb fuel current previous).tested.head? =
      if 0 < current then some (current - 1) else none := by
  cases fuel with
  | zero =>
    have hc : current = 0 := Nat.le_zero.mp h
    subst hc
    simp [extractLoop]
  | succ fuel =>
    by_cases hc : current = 0
    · subst hc
      simp [extractLoop]
    · have h0 : 0 < current := Nat.pos_of_ne_zero hc
      rw [if_pos h0]
      simp only [extractLoop, if_neg hc]
      split
      · split
        · rfl
        · split <;> rfl
      · rfl

/-- Helper: every position where the marker comparison is executed is
strictly below the `current` value at loop entry. -/
theorem extractLoop_tested_lt (data : List Nat) (junk : Nat → Nat) (cb : Nat → Nat → Bool) :
    ∀ fuel current previous p, p ∈ (extractLoop data junk cb fuel current previous).tested →
      p < current := by
  intro fuel
  induction fuel with
  | zero =>
    intro current previous p hp
    simp [extractLoop] at hp
  | succ fuel ih =>
    intro current previous p hp
    by_cases hc : current = 0
    · subst hc
      simp [extractLoop] at hp
    · have h0 : 0 < current := Nat.pos_of_ne_zero hc
      simp only [extractLoop, if_neg hc] at hp
      split at hp
      · split at hp
        · simp at hp
          omega
        · split at hp
          · simp at hp
            rcases hp with rfl | hp
            · omega
            · have h2 := ih _ _ _ hp
              revert h2
              split <;> intro h2 <;> omega
          · simp at hp
            omega
      · simp at hp
        rcases hp with rfl | hp
        · omega
        · have h2 := ih _ _ _ hp
          omega

/-- Helper: every position where the marker comparison succeeds is
strictly below the `current` value at loop entry. -/
theorem extractLoop_matched_lt (data : List Nat) (junk : Nat → Nat) (cb : Nat → Nat → Bool) :
    ∀ fuel current previous p, p ∈ (extractLoop data junk cb fuel current previous).matched →
      p < current := by
  intro fuel
  induction fuel with
  | zero =>
    intro current previous p hp
    simp [extractLoop] at hp
  | succ fuel ih =>
    intro current previous p hp
    by_cases hc : current = 0
    · subst hc
      simp [extractLoop] at hp
    · have h0 : 0 < current := Nat.pos_of_ne_zero hc
      simp only [extractLoop, if_neg hc] at hp
      split at hp
      · split at hp
        · simp at hp
          omega
        · split at hp
          · simp at hp
            rcases hp with rfl | hp
            · omega
            · have h2 := ih _ _ _ hp
              revert h2
              split <;> intro h2 <;> omega
          · simp at hp
            omega
      · simp at hp
        have h2 := ih _ _ _ hp
        omega

/-- Helper: the chain invariant holds for the records delivered by the
scan loop, relative to the `previous` bound at loop entry. -/
theorem extractLoop_chainOk (data : List Nat) (junk : Nat → Nat) (cb : Nat → Nat → Bool) :
    ∀ fuel current previous,
      chainOkB previous (extractLoop data junk cb fuel current previous).records = true := by
  intro fuel
  induction fuel with
  | zero =>
    intro current previous
    simp [extractLoop, chainOkB]
  | succ fuel ih =>
    intro current previous
    by_cases hc : current = 0
    · subst hc
      simp [extractLoop, chainOkB]
    · simp only [extractLoop, if_neg hc]
      split
      · split
        · simp [chainOkB]
        · split
          · rename_i hov _
            simp only [ExtractOut.records]
            rw [chainOkB]
            simp only [Bool.and_eq_true, decide_eq_true_eq]
            exact ⟨Nat.le_of_not_lt hov, ih _ _⟩
          · rename_i hov _
            simp [chainOkB]
            exact Nat.le_of_not_lt hov
      · simp only [ExtractOut.records]
        exact ih _ _

/-- Helper: the scan loop observes the cooperative-stop discipline for
the dive-record consumer. -/
theorem extractLoop_stops (data : List Nat) (junk : Nat → Nat) (cb : Nat → Nat → Bool) :
    ∀ fuel current previous,
      stopsProperly cb (extractLoop data junk cb fuel current previous).status
        (extractLoop data junk cb fuel current previous).records = true := by
  intro fuel
  induction fuel with
  | zero =>
    intro current previous
    simp [extractLoop, stopsProperly]
  | succ fuel ih =>
    intro current previous
    by_cases hc : current = 0
    · subst hc
      simp [extractLoop, stopsProperly]
    · simp only [extractLoop, if_neg hc]
      split
      · split
        · simp [stopsProperly]
        · split
          · rename_i hcb
            simp only [ExtractOut.records, ExtractOut.status]
            rw [stopsProperly]
            simp only [hcb, if_true]
            exact ih _ _
          · rename_i hcb
            simp only [ExtractOut.records, ExtractOut.status]
            rw [stopsProperly]
            simp [hcb, stopsProperly]
      · simp only [ExtractOut.records, ExtractOut.status]
        exact ih _ _

/-- C1 counterexample: on the stream `00 00 00 7D 00 80 00` the decoder
emits a depth sample of 125 feet for the overflow pair `7D 00`, while
the claimed law `124 + k` predicts 124 at `k = 0`. -/
theorem C1_counterexample :
    (suunto_solution_parser_samples_foreach [0, 0, 0, 0x7D, 0, 0x80, 0] (fun _ => 0)).samples =
      [Sample.time 180, Sample.depth 125] ∧
    Sample.depth 125 ≠ Sample.depth 124 := by
  decide

/-- C1 (amended): an overflow pair starting with byte 0x7D adds a depth
delta of exactly `125 + k` (`k` interpreted as signed), and one starting
with 0x83 adds exactly `-125 + k`, in the 32-bit unsigned depth
accumulator of the sample-stream decoder. -/
theorem C1_overflow_continuation (data : List Nat) (junk : Nat → Nat)
    (fuel offset time depth : Nat)
    (hv : data.getD offset 0 = 0x7D ∨ data.getD offset 0 = 0x83)
    (hoff : offset + 2 ≤ data.length)
    (hk : data.getD (offset + 1) 0 < 256) :
    (solLoop data junk (fuel + 1) offset time depth).samples.take 2 =
      [Sample.time ((time + 180) % U32),
       Sample.depth (Int.toNat (((depth : Int) +
         overflowDelta (data.getD offset 0) (data.getD (offset + 1) 0)) % (U32 : Int)))] := by
  have ho : offset < data.length := by omega
  have ho1 : offset + 1 < data.length := by omega
  have hno : ¬ (data.length < offset + 2) := by omega
  have hrm : readMem data junk offset = data.getD offset 0 := by
    simp [readMem, ho]
  have hrm1 : readMem data junk (offset + 1) = data.getD (offset + 1) 0 := by
    simp [readMem, ho1]
  rcases hv with h | h <;>
    by_cases hkc : data.getD (offset + 1) 0 < 128 <;>
      simp only [solLoop, hrm, hrm1, h, hno, if_false, uadd32, sext8, overflowDelta, sByte,
        U32, hkc, if_true, ho, true_and, List.take_succ_cons, List.take_zero] <;>
      norm_num <;>
      omega

/-- C1 witness: on the stream `00 00 00 7D 07 80 00`, starting from
depth 0, the overflow pair `7D 07` yields the depth sample
`125 + 7 = 132`. -/
theorem C1_overflow_continuation_witness :
    (solLoop [0, 0, 0, 0x7D, 7, 0x80, 0] (fun _ => 0) 3 3 0 0).samples.take 2 =
      [Sample.time 180, Sample.depth 132] := by
  have h := C1_overflow_continuation [0, 0, 0, 0x7D, 7, 0x80, 0] (fun _ => 0) 2 3 0 0
    (Or.inl rfl) (by decide) (by decide)
  rw [h]
  decide

/-- C2 counterexample: in a 9-byte dump whose marker sits exactly at
position `size - 4 = 5`, the splitter never tests position 5 (the scan
index is decremented before the comparison), so the planted marker is
not found: the tested positions are 4, 3, 2, 1, 0. -/
theorem C2_counterexample :
    isMarkerAt [0, 0, 0, 0, 0, 0xa5, 0xa5, 0x5a, 0x5a] (fun _ => 0) 5 = true ∧
    (uwatec_smart_extract_dives [0, 0, 0, 0, 0, 0xa5, 0xa5, 0x5a, 0x5a] (fun _ => 0)
      (fun _ _ => true)).tested = [4, 3, 2, 1, 0] ∧
    (uwatec_smart_extract_dives [0, 0, 0, 0, 0, 0xa5, 0xa5, 0x5a, 0x5a] (fun _ => 0)
      (fun _ _ => true)).matched = [] := by
  decide

/-- C2 (amended): the first marker candidate the splitter tests is
`size - 5` (none at all when `size < 5`), and at every re-entry of the
scan loop with index `current` — in particular with `current = p - 4`
right after accepting a record at `p` — the next candidate tested is
`current - 1`; so `size - 4` and `p - 4` themselves are never tested. -/
theorem C2_candidate_positions (data : List Nat) (junk : Nat → Nat) (cb : Nat → Nat → Bool) :
    ((uwatec_smart_extract_dives data junk cb).tested.head? =
      if 5 ≤ data.length then some (data.length - 5) else none) ∧
    ∀ fuel current previous, current ≤ fuel →
      (extractLoop data junk cb fuel current previous).tested.head? =
        if 0 < current then some (current - 1) else none := by
  constructor
  · rw [uwatec_smart_extract_dives,
      extractLoop_tested_head data junk cb _ _ _ (by split <;> omega)]
    by_cases h5 : 5 ≤ data.length
    · rw [if_pos (by omega : (4 : Nat) ≤ data.length), if_pos (by omega), if_pos h5]
      congr 1
    · rw [if_neg h5]
      split
      · rw [if_neg (by omega)]
      · rw [if_neg (by omega)]
  · intro fuel current previous h
    exact extractLoop_tested_head data junk cb fuel current previous h

/-- C2 witness: re-entering the scan loop with `current = 5` (as after
accepting a record at position 9), the next tested candidate is 4. -/
theorem C2_candidate_positions_witness :
    (extractLoop [0, 0, 0, 0, 0, 0, 0, 0, 0, 0, 0, 0, 0] (fun _ => 0) (fun _ _ => true)
      9 5 9).tested.head? = some 4 := by
  have h := (C2_candidate_positions [0, 0, 0, 0, 0, 0, 0, 0, 0, 0, 0, 0, 0] (fun _ => 0)
    (fun _ _ => true)).2 9 5 9 (by decide)
  rw [h]
  decide

/-- C3 (code bug): on the 4-byte stream `00 00 00 01` the scan loop
exits with `offset = size = 4` and the final terminal-marker check reads
index 4, one byte past the buffer; the decoder's result genuinely
depends on that out-of-bounds byte (success when it happens to be 0x80,
DataFormatError otherwise). -/
theorem C3_oob_final_check :
    (suunto_solution_parser_samples_foreach [0, 0, 0, 1] (fun _ => 0)).finalRead = some 4 ∧
    ([0, 0, 0, 1] : List Nat).length = 4 ∧
    (suunto_solution_parser_samples_foreach [0, 0, 0, 1] (fun _ => 0x80)).status =
      DcStatus.success ∧
    (suunto_solution_parser_samples_foreach [0, 0, 0, 1] (fun _ => 0)).status =
      DcStatus.dataformat := by
  decide

/-- C4 counterexample: a sample consumer that signals stop on every
sample still receives all four samples of the stream
`00 00 00 03 03 80 00` — the sample decoder ignores the consumer's
return value, so production is not halted after the first delivery. -/
theorem C4_counterexample :
    (samplesDelivered (fun _ => false) [0, 0, 0, 3, 3, 0x80, 0] (fun _ => 0)).length = 4 ∧
    ¬ (samplesDelivered (fun _ => false) [0, 0, 0, 3, 3, 0x80, 0] (fun _ => 0)).length ≤ 1 := by
  decide

/-- C4 (amended): the dive-record consumer of the dive splitter returns
a boolean and a stop signal halts record production immediately with
success status, the records already delivered standing; the sample
consumer's return value is discarded by the sample decoder, whose
delivered sample sequence is therefore independent of the consumer. -/
theorem C4_stop_semantics (data : List Nat) (junk : Nat → Nat) (cb : Nat → Nat → Bool)
    (sdata : List Nat) (sjunk : Nat → Nat) (scb1 scb2 : Sample → Bool) :
    stopsProperly cb (uwatec_smart_extract_dives data junk cb).status
      (uwatec_smart_extract_dives data junk cb).records = true ∧
    samplesDelivered scb1 sdata sjunk = samplesDelivered scb2 sdata sjunk := by
  constructor
  · exact extractLoop_stops data junk cb _ _ _
  · rfl

/-- C5 (code bug): the stream `00 00 00 02 03` contains no 0x80 after
the header, yet the decoder returns success when the out-of-bounds byte
at index 5 happens to be 0x80 (and DataFormatError otherwise); and a
stream with 0x80 at the first decodable position `data[3]` succeeds
with zero samples. -/
theorem C5_terminal_law_violated :
    (([0, 0, 0, 2, 3] : List Nat).drop 3).all (fun b => b != 0x80) = true ∧
    (suunto_solution_parser_samples_foreach [0, 0, 0, 2, 3] (fun _ => 0x80)).status =
      DcStatus.success ∧
    (suunto_solution_parser_samples_foreach [0, 0, 0, 2, 3] (fun _ => 0)).status =
      DcStatus.dataformat ∧
    (suunto_solution_parser_samples_foreach [0, 0, 0, 0x80, 9] (fun _ => 0)).status =
      DcStatus.success ∧
    (suunto_solution_parser_samples_foreach [0, 0, 0, 0x80, 9] (fun _ => 0)).samples = [] := by
  decide

/-- C6 counterexample: a marker at position 1 of a 13-byte dump with
length field `FF FF FF FF` is delivered as a record of length
4294967295 with success status — `1 + 4294967295` wraps to 0 in the
32-bit overlap check — although the payload extends far past the
initial bound 13. -/
theorem C6_counterexample :
    (uwatec_smart_extract_dives
      [0, 0xa5, 0xa5, 0x5a, 0x5a, 255, 255, 255, 255, 1, 2, 3, 4]
      (fun _ => 0) (fun _ _ => true)).records = [(1, 4294967295)] ∧
    (uwatec_smart_extract_dives
      [0, 0xa5, 0xa5, 0x5a, 0x5a, 255, 255, 255, 255, 1, 2, 3, 4]
      (fun _ => 0) (fun _ _ => true)).status = DcStatus.success ∧
    ¬ (1 + 4294967295 ≤ 13) := by
  decide

/-- C6 (amended): the overlap check runs in 32-bit unsigned arithmetic.
Every delivered record `(p, len)` satisfies `(p + len) mod 2^32 ≤ bound`
where the bound starts at the buffer size and becomes the start of the
previously accepted record; and a marker match whose
`(p + len) mod 2^32` exceeds the bound makes the splitter return
DataFormatError at once, delivering no record for it and nothing
further. -/
theorem C6_overlap_guard (data : List Nat) (junk : Nat → Nat) (cb : Nat → Nat → Bool) :
    chainOkB data.length (uwatec_smart_extract_dives data junk cb).records = true ∧
    ∀ fuel current previous, 0 < current →
      isMarkerAt data junk (current - 1) = true →
      previous < ((current - 1) + le32At data junk (current - 1 + 4)) % U32 →
      extractLoop data junk cb (fuel + 1) current previous =
        { status := DcStatus.dataformat, records := [], matched := [current - 1]
          tested := [current - 1] } := by
  constructor
  · exact extractLoop_chainOk data junk cb _ _ _
  · intro fuel current previous h0 hm hov
    have hc : ¬ (current = 0) := by omega
    simp only [extractLoop, if_neg hc, hm, if_true, if_pos hov]

/-- C6 witness: a planted marker at position 2 of a 12-byte dump whose
length field decodes to 16777215 overlaps the initial bound 12 and is
rejected with DataFormatError, no record delivered. -/
theorem C6_overlap_guard_witness :
    extractLoop [9, 9, 0xa5, 0xa5, 0x5a, 0x5a, 255, 255, 255, 0, 1, 1]
      (fun _ => 0) (fun _ _ => true) 4 3 12 =
      { status := DcStatus.dataformat, records := [], matched := [2], tested := [2] } := by
  have h := (C6_overlap_guard [9, 9, 0xa5, 0xa5, 0x5a, 0x5a, 255, 255, 255, 0, 1, 1]
    (fun _ => 0) (fun _ _ => true)).2 3 3 12 (by decide) (by decide) (by decide)
  rw [h]

/-- C7 counterexample: a transport write that returns 3 bytes for a
5-byte command makes the transfer fail with `DC_STATUS_TIMEOUT`, not
`DC_STATUS_IO` — the `EXITCODE` macro maps every return value other
than -1 to the timeout status. -/
theorem C7_counterexample :
    uwatec_smart_transfer 3 1 5 1 = DcStatus.timeout ∧
    DcStatus.timeout ≠ DcStatus.ioerror := by
  decide

/-- C7 (amended): a mismatched transport count makes the transfer fail
with `DC_STATUS_IO` exactly when the transport returned -1, and with
`DC_STATUS_TIMEOUT` for any other mismatched count — on the write and
on the read alike. -/
theorem C7_transfer_status (w r : Int) (cs as : Nat) :
    (toU32 w ≠ cs →
      uwatec_smart_transfer w r cs as =
        (if w = -1 then DcStatus.ioerror else DcStatus.timeout)) ∧
    (toU32 w = cs → toU32 r ≠ as →
      uwatec_smart_transfer w r cs as =
        (if r = -1 then DcStatus.ioerror else DcStatus.timeout)) := by
  constructor
  · intro h
    rw [uwatec_smart_transfer, if_pos h]
    rfl
  · intro h1 h2
    rw [uwatec_smart_transfer, if_neg (by simp [h1]), if_pos h2]
    rfl

/-- C7 witness: a write returning -1 fails with `DC_STATUS_IO`; a read
returning 2 bytes instead of 1 fails with `DC_STATUS_TIMEOUT`. -/
theorem C7_transfer_status_witness :
    uwatec_smart_transfer (-1) 0 5 1 = DcStatus.ioerror ∧
    uwatec_smart_transfer 5 2 5 1 = DcStatus.timeout := by
  constructor
  · have h := (C7_transfer_status (-1) 0 5 1).1 (by decide)
    rw [h]
    decide
  · have h := (C7_transfer_status 5 2 5 1).2 (by decide) (by decide)
    rw [h]
    decide

/-- C8 (confirmed): when the 0xC6 length query answers a length of 0,
the dump operation returns success with an empty buffer and the 0xC4
data query is never sent. -/
theorem C8_empty_dump (o : SmartOracle)
    (hc : o.clearOk = true)
    (h1 : uwatec_smart_transfer o.vW1 o.vR1 1 1 = DcStatus.success)
    (h2 : uwatec_smart_transfer o.vW2 o.vR2 1 4 = DcStatus.success)
    (h3 : uwatec_smart_transfer o.vW3 o.vR3 1 4 = DcStatus.success)
    (h6 : uwatec_smart_transfer o.c6W o.c6R 9 4 = DcStatus.success)
    (hL : le32 o.c6Answer = 0) :
    (uwatec_smart_device_dump o).status = DcStatus.success ∧
    (uwatec_smart_device_dump o).bufSize = 0 ∧
    0xC4 ∉ (uwatec_smart_device_dump o).opcodes := by
  rw [uwatec_smart_device_dump]
  simp only [hc, h1, h2, h3, h6, hL, Bool.true_eq_false, if_false, ne_eq,
    not_true_eq_false, if_true]
  refine ⟨trivial, trivial, ?_⟩
  decide

/-- C8 witness: a concrete oracle whose length query answers
`00 00 00 00` produces a successful empty dump without the 0xC4
command. -/
theorem C8_empty_dump_witness :
    (uwatec_smart_device_dump
      ⟨true, 1, 1, 1, 4, 1, 4, 9, 4, [0, 0, 0, 0], true, 9, 4, [0, 0, 0, 0], []⟩).status =
        DcStatus.success ∧
    (uwatec_smart_device_dump
      ⟨true, 1, 1, 1, 4, 1, 4, 9, 4, [0, 0, 0, 0], true, 9, 4, [0, 0, 0, 0], []⟩).bufSize = 0 ∧
    0xC4 ∉ (uwatec_smart_device_dump
      ⟨true, 1, 1, 1, 4, 1, 4, 9, 4, [0, 0, 0, 0], true, 9, 4, [0, 0, 0, 0], []⟩).opcodes :=
  C8_empty_dump _ rfl (by decide) (by decide) (by decide) (by decide) (by decide)

/-- C9 counterexample: with a negotiated length of `FF FF FF FF`
(4294967295) and a data-query total of `03 00 00 00`, the total differs
from `L + 4 = 4294967299`, yet the dump engine does not fail with
ProtocolError: `length + 4` wraps to 3 in `unsigned int` arithmetic, the
check passes, and a payload chunk read is attempted. -/
theorem C9_counterexample :
    le32 [3, 0, 0, 0] ≠ le32 [255, 255, 255, 255] + 4 ∧
    (uwatec_smart_device_dump
      ⟨true, 1, 1, 1, 4, 1, 4, 9, 4, [255, 255, 255, 255], true, 9, 4, [3, 0, 0, 0],
        [(0, -1)]⟩).status ≠ DcStatus.protocol ∧
    (uwatec_smart_device_dump
      ⟨true, 1, 1, 1, 4, 1, 4, 9, 4, [255, 255, 255, 255], true, 9, 4, [3, 0, 0, 0],
        [(0, -1)]⟩).chunkTries = 1 := by
  decide

/-- C9 (amended): when the 0xC4 data query answers a total different
from `(L + 4) mod 2^32` (the comparison the C code performs in
`unsigned int` arithmetic), the dump fails with ProtocolError before
any payload chunk read is attempted. -/
theorem C9_total_mismatch (o : SmartOracle)
    (hc : o.clearOk = true)
    (h1 : uwatec_smart_transfer o.vW1 o.vR1 1 1 = DcStatus.success)
    (h2 : uwatec_smart_transfer o.vW2 o.vR2 1 4 = DcStatus.success)
    (h3 : uwatec_smart_transfer o.vW3 o.vR3 1 4 = DcStatus.success)
    (h6 : uwatec_smart_transfer o.c6W o.c6R 9 4 = DcStatus.success)
    (hL : le32 o.c6Answer ≠ 0)
    (hrz : o.resizeOk = true)
    (h4 : uwatec_smart_transfer o.c4W o.c4R 9 4 = DcStatus.success)
    (hT : le32 o.c4Answer ≠ (le32 o.c6Answer + 4) % U32) :
    (uwatec_smart_device_dump o).status = DcStatus.protocol ∧
    (uwatec_smart_device_dump o).chunkTries = 0 := by
  rw [uwatec_smart_device_dump]
  simp only [hc, h1, h2, h3, h6, hL, hrz, h4, hT, Bool.true_eq_false, if_false, ne_eq,
    not_true_eq_false, if_true, not_false_eq_true]
  exact ⟨trivial, trivial⟩

/-- C9 witness: a negotiated length of 1 with a data-query total of 9
(instead of 5) fails with ProtocolError and zero chunk reads. -/
theorem C9_total_mismatch_witness :
    (uwatec_smart_device_dump
      ⟨true, 1, 1, 1, 4, 1, 4, 9, 4, [1, 0, 0, 0], true, 9, 4, [9, 0, 0, 0], []⟩).status =
        DcStatus.protocol ∧
    (uwatec_smart_device_dump
      ⟨true, 1, 1, 1, 4, 1, 4, 9, 4, [1, 0, 0, 0], true, 9, 4, [9, 0, 0, 0], []⟩).chunkTries =
        0 :=
  C9_total_mismatch _ rfl (by decide) (by decide) (by decide) (by decide) (by decide) rfl
    (by decide) (by decide)

/-- C10 counterexample: in a 9-byte dump the marker comparison succeeds
at position `4 = size - 5`, so the 4-byte length field at `p + 4 = 8`
reaches indices 9, 10, 11 — past the buffer end: `p + 8 ≤ size` fails. -/
theorem C10_counterexample :
    (uwatec_smart_extract_dives [0, 0, 0, 0, 0xa5, 0xa5, 0x5a, 0x5a, 0]
      (fun _ => 0) (fun _ _ => true)).matched = [4] ∧
    ¬ (4 + 8 ≤ ([0, 0, 0, 0, 0xa5, 0xa5, 0x5a, 0x5a, 0] : List Nat).length) := by
  decide

/-- C10 (amended): the marker comparison only ever succeeds at positions
`p` with `p + 5 ≤ size` — so the 4-byte marker compare itself stays in
bounds — but `p + 8 ≤ size` is not guaranteed, and the little-endian
length read at `p + 4` can extend up to 3 bytes past the buffer end. -/
theorem C10_matched_bound (data : List Nat) (junk : Nat → Nat) (cb : Nat → Nat → Bool)
    (p : Nat) (hp : p ∈ (uwatec_smart_extract_dives data junk cb).matched) :
    p + 5 ≤ data.length := by
  rw [uwatec_smart_extract_dives] at hp
  have h := extractLoop_matched_lt data junk cb _ _ _ _ hp
  revert h
  split <;> omega

/-- C10 witness: the dump with a marker at position 1 matches it, and
`1 + 5 ≤ 13` indeed holds. -/
theorem C10_matched_bound_witness :
    1 + 5 ≤ ([0, 0xa5, 0xa5, 0x5a, 0x5a, 0, 0, 0, 0, 9, 9, 9, 9] : List Nat).length :=
  C10_matched_bound [0, 0xa5, 0xa5, 0x5a, 0x5a, 0, 0, 0, 0, 9, 9, 9, 9]
    (fun _ => 0) (fun _ _ => true) 1 (by decide)
